import Mathlib

/-!
Verification development for `scripts/fiew_bot.py` (the Fiew Facebook page
bot).  The script is embedded shallowly: Python strings become `List Char`
(so that Python's character-indexed slicing, splitting and concatenation
are ordinary list operations), the filesystem state touched by the bot
becomes explicit lists of directory entries, environment variables become
`Option` values, and the two effectful calls (the Graph API call and the
`random.choice` draw) become explicit oracle parameters.  Every definition
mirrors the corresponding Python function; theorems then settle the claims
about the script.
-/

namespace FiewBot

/-- Python strings, embedded as lists of characters. -/
abbrev Str := List Char

/-- Conversion of a Lean string literal into the embedding of Python strings. -/
def strS (s : String) : Str := s.toList

/-- Python `str.strip()` whitespace set — the characters with
`str.isspace()` true: `\t\n\v\f\r`, the separator controls `\x1c`–`\x1f`,
space, `\x85`, `\xa0`, and the Unicode space/line/paragraph separators. -/
def isPyWS (c : Char) : Bool :=
  [0x09, 0x0a, 0x0b, 0x0c, 0x0d, 0x1c, 0x1d, 0x1e, 0x1f, 0x20, 0x85, 0xa0,
   0x1680, 0x2028, 0x2029, 0x202f, 0x205f, 0x3000].contains c.toNat
  || (0x2000 ≤ c.toNat && c.toNat ≤ 0x200a)

/-- Python `s.strip()`: remove leading and trailing whitespace. -/
def pyStrip (s : Str) : Str :=
  ((s.dropWhile isPyWS).reverse.dropWhile isPyWS).reverse

/-- Python `s.split('\n')`: split on newlines, keeping empty pieces, so the
result is always non-empty (`''.split('\n') == ['']`). -/
def splitLines : Str → List Str
  | [] => [[]]
  | c :: rest =>
    match splitLines rest with
    | [] => [[]]
    | l :: ls => if c = '\n' then [] :: l :: ls else (c :: l) :: ls

/-- One iteration of the `for line in lines` loop of
`convert_markdown_to_facebook_post`: the string appended to `result` for a
given input line.  The branches appear in the source's `if/elif` order. -/
def convertLine (line : Str) : Str :=
  if (strS "# ").isPrefixOf line then pyStrip (line.drop 2) ++ strS "\n"
  else if (strS "## ").isPrefixOf line then pyStrip (line.drop 3) ++ strS "\n"
  else if (strS "### ").isPrefixOf line then pyStrip (line.drop 4) ++ strS ": "
  else if (strS ">").isPrefixOf line then strS "💬 " ++ pyStrip (line.drop 1) ++ strS "\n"
  else if (strS "* ").isPrefixOf line || (strS "- ").isPrefixOf line then
    strS "• " ++ pyStrip (line.drop 2) ++ strS "\n"
  else if (strS "1. ").isPrefixOf line then line ++ strS "\n"
  else if pyStrip line = strS "---" || pyStrip line = strS "***" then
    List.replicate 30 '─' ++ strS "\n"
  else if pyStrip line ≠ [] then pyStrip line ++ strS "\n"
  else strS "\n"

/-- The `result` list built by the conversion loop (`result = []` followed by
one `result.append(...)` per line). -/
def buildResult (lines : List Str) : List Str :=
  lines.foldl (fun acc line => acc ++ [convertLine line]) []

/-- The fixed hashtag block appended after the loop. -/
def hashtags : Str := strS "\n\n#Fiew #DailyPost #Curiosity"

/-- `''.join(result) + hashtags` for an input: the converted text before the
length limit is applied. -/
def textWithTags (md : Str) : Str :=
  (buildResult (splitLines (pyStrip md))).flatten ++ hashtags

/-- `convert_markdown_to_facebook_post` when no exception occurs: join the
per-line results, append the hashtags, cut to `4997` characters plus `"..."`
when longer than `5000`, and strip the final text. -/
def convert_markdown_total (md : Str) : Str :=
  pyStrip (if (textWithTags md).length > 5000 then
             (textWithTags md).take 4997 ++ strS "..."
           else textWithTags md)

/-- `convert_markdown_to_facebook_post`, with the `try/except` modelled by an
oracle `exc` saying whether an exception interrupts the `try` block; the
`except` handler returns `markdown_content[:2000]`. -/
def convert_markdown_to_facebook_post (exc : Bool) (md : Str) : Str :=
  if exc then md.take 2000 else convert_markdown_total md

/-! The daily message generator (`generate_daily_message`).  The current
date is passed as `(m, d)` (month, day), the weekday as `wd : Fin 7`
(Python's `date.weekday()`: Monday is `0`), the `content` section of the
configuration as `fallback_messages` / `default_message`, and the
`random.choice` draw as a natural number `rnd` used as an index modulo the
length of the list. -/

/-- The `special_dates` dictionary of `generate_daily_message`. -/
def special_dates : List ((Nat × Nat) × Str) :=
  [((1, 1), strS "🎉 Happy New Year! May this year be filled with discovery and growth! #NewYear"),
   ((2, 14), strS "💝 Happy Valentine's Day! Remember to love what you do and do what you love. #ValentinesDay"),
   ((3, 8), strS "🌸 Happy International Women's Day! Celebrating women in tech and beyond. #WomensDay"),
   ((4, 22), strS "🌍 Happy Earth Day! Let's protect our beautiful planet. #EarthDay"),
   ((12, 25), strS "🎄 Merry Christmas! Wishing you peace, joy, and inspiration! #Christmas"),
   ((10, 31), strS "🎃 Happy Halloween! May your day be spooktacular! #Halloween")]

/-- Dictionary lookup `special_dates[(month, day)]` (the keys are distinct,
so `find?` agrees with the Python dict). -/
def lookupSpecial (m d : Nat) : Option Str :=
  (special_dates.find? fun p => p.1.1 == m && p.1.2 == d).map (·.2)

/-- The `day_themes` list, indexed by `date.weekday()`. -/
def day_themes : List Str :=
  [strS "Mindfulness Monday ✨",
   strS "Tech Tuesday 💻",
   strS "Wisdom Wednesday 📚",
   strS "Throwback Thursday 🔙",
   strS "Future Friday 🚀",
   strS "Science Saturday 🔬",
   strS "Serenity Sunday ☮️"]

/-- The hard-coded second argument of
`self.config['content'].get('default_message', ...)`. -/
def default_message_fallback : Str :=
  strS "🌞 Good morning from Fiew! Stay curious, stay inspired."

/-- `generate_daily_message`.  `fallback_messages` is
`config['content'].get('fallback_messages', [])` and `default_message` is
the optional `config['content']['default_message']` entry. -/
def generate_daily_message (m d : Nat) (wd : Fin 7) (fallback_messages : List Str)
    (default_message : Option Str) (rnd : Nat) : Str :=
  match lookupSpecial m d with
  | some msg => msg
  | none =>
    let theme := day_themes.getD wd.val []
    if fallback_messages ≠ [] then
      theme ++ strS ": " ++ fallback_messages.getD (rnd % fallback_messages.length) []
    else
      theme ++ strS ": " ++ default_message.getD default_message_fallback

/-! Configuration loading (`load_config`).  The YAML file's contents are a
`Config` value (each optional field is a possibly missing key); a missing
file is `none` and triggers the hard-coded default dictionary.  Environment
variables are `Option Str` (`none` is unset; `some []` is set to the empty
string). -/

/-- The `facebook` section of the configuration. -/
structure FacebookCfg where
  page_id : Option Str
  access_token : Option Str
  api_version : Option Str
deriving DecidableEq

/-- The `paths` section of the configuration. -/
structure PathsCfg where
  posts_dir : Option Str
  logs_dir : Option Str
deriving DecidableEq

/-- The `content` section of the configuration. -/
structure ContentCfg where
  default_message : Option Str
  fallback_messages : Option (List Str)
deriving DecidableEq

/-- A configuration dictionary. -/
structure Config where
  paths : Option PathsCfg
  content : Option ContentCfg
  facebook : Option FacebookCfg
deriving DecidableEq

/-- The hard-coded dictionary used when the config file is missing
(`except FileNotFoundError`). -/
def defaultConfig : Config :=
  { paths := some { posts_dir := some (strS "posts/"), logs_dir := some (strS "logs/") },
    content := some
      { default_message :=
          some (strS "🌞 Good morning from Fiew! Stay curious, stay inspired. #FiewDaily"),
        fallback_messages := some
          [strS "Another day, another opportunity to learn something new! 📚",
           strS "Keep exploring, keep growing. What will you discover today?",
           strS "Thought for the day: The only limit is your imagination. ✨"] },
    facebook := none }

/-- The three environment variables read by `load_config`. -/
structure Env where
  FB_PAGE_ID : Option Str
  FB_ACCESS_TOKEN : Option Str
  FB_API_VERSION : Option Str
deriving DecidableEq

/-- The merge step `if value: config['facebook'][key] = value` for one key:
a truthy (non-`None`, non-empty) environment value replaces the file value. -/
def envOverride (old : Option Str) (v : Option Str) : Option Str :=
  match v with
  | some s => if s ≠ [] then some s else old
  | none => old

/-- The `config` dictionary as loaded from the file (default on a missing
file), before the environment merge. -/
def fileBase (file : Option Config) : Config := file.getD defaultConfig

/-- `config['facebook']` after the `if 'facebook' not in config` step. -/
def baseFacebook (file : Option Config) : FacebookCfg :=
  (fileBase file).facebook.getD ⟨none, none, none⟩

/-- `load_config`: read the file (or the default dictionary), then overwrite
each `facebook` key whose environment value is truthy.  Note that the
environment value for `api_version` is `os.getenv('FB_API_VERSION', 'v18.0')`,
which is the truthy `'v18.0'` whenever the variable is unset. -/
def load_config (file : Option Config) (env : Env) : Config :=
  { fileBase file with
    facebook := some
      { page_id := envOverride (baseFacebook file).page_id env.FB_PAGE_ID,
        access_token := envOverride (baseFacebook file).access_token env.FB_ACCESS_TOKEN,
        api_version := envOverride (baseFacebook file).api_version
          (some (env.FB_API_VERSION.getD (strS "v18.0"))) } }

/-! The posts directory (`find_new_post`).  The directory is a list of
entries — name, modification time and file contents; the `archive`
subdirectory is kept as a separate list of file names (it is a
subdirectory, so the non-recursive `glob("*.md")` never sees it).  Names
within a directory are distinct, so `rename` removes exactly the entry
with the selected name. -/

/-- One file of the posts directory. -/
structure FileEntry where
  name : Str
  mtime : Nat
  content : Str
deriving DecidableEq

/-- Whether `pathlib.Path.glob("*.md")` matches a file name: any name
ending in `.md`.  Unlike the `glob` module, pathlib's glob also matches
hidden dot-initial names such as `.a.md` and `.md` itself. -/
def isMdName (n : Str) : Bool := (strS ".md").isSuffixOf n

/-- The sort key `lambda x: x.name.lower()`.  `Char.toLower` lowers exactly
the ASCII letters, so the key computes Python's `str.lower()` precisely on
ASCII names (`asciiNames` below); the selection theorem is scoped to such
directories. -/
def lowerKey (f : FileEntry) : Str := f.name.map Char.toLower

/-- Every character of every file name is ASCII.  On such directories
`lowerKey` agrees with Python's full-Unicode `str.lower()` key. -/
def asciiNames (files : List FileEntry) : Prop :=
  ∀ f ∈ files, ∀ c ∈ f.name, c.toNat < 128

instance (files : List FileEntry) : Decidable (asciiNames files) :=
  inferInstanceAs (Decidable (∀ f ∈ files, ∀ c ∈ f.name, c.toNat < 128))

/-- The comparison used by `markdown_files.sort(key=lambda x: x.name.lower())`:
lexicographic order (by code point) on the lowered names. -/
def byKey (a b : FileEntry) : Prop := lowerKey a ≤ lowerKey b

instance : DecidableRel byKey :=
  fun a b => inferInstanceAs (Decidable (lowerKey a ≤ lowerKey b))

instance : IsTotal FileEntry byKey := ⟨fun a b => le_total (lowerKey a) (lowerKey b)⟩

instance : IsTrans FileEntry byKey := ⟨fun _ _ _ h h' => le_trans h h'⟩

/-- pathlib's stem/suffix split of a file name: split at the last dot when
that dot is neither the first nor the last character of the name; otherwise
the suffix is empty.  In particular `.md` has stem `.md` and empty suffix,
while `.a.md` splits into `.a` and `.md`. -/
def pathSplit (n : Str) : Str × Str :=
  match n.reverse.findIdx? (· == '.') with
  | none => (n, [])
  | some j =>
    let i := n.length - 1 - j
    if 0 < i ∧ i < n.length - 1 then (n.take i, n.drop i) else (n, [])

/-- `Path.stem`. -/
def pathStem (n : Str) : Str := (pathSplit n).1

/-- `Path.suffix`. -/
def pathSuffix (n : Str) : Str := (pathSplit n).2

/-- The archived name `f"{post_file.stem}_{timestamp}{post_file.suffix}"`. -/
def archivedName (n : Str) (ts : Str) : Str :=
  pathStem n ++ strS "_" ++ ts ++ pathSuffix n

/-- Result of `find_new_post`: the returned content plus the posts directory
and archive directory after the call. -/
structure FindResult where
  content : Option Str
  posts : List FileEntry
  archive : List Str
deriving DecidableEq

/-- `glob("*.md")` followed by `markdown_files.sort(key=lambda x: x.name.lower())`.
Python's `list.sort` is stable, as is insertion sort with a non-strict total
comparison, so the two agree. -/
def scanSorted (files : List FileEntry) : List FileEntry :=
  List.insertionSort byKey (files.filter fun f => isMdName f.name)

/-- `find_new_post`: a missing posts directory is created (empty) and `None`
is returned; an empty scan returns `None` (the source tests emptiness before
sorting, which agrees with sorting first since the sort of a non-empty list
is non-empty); otherwise the head of the sorted scan is read and — outside
test mode — renamed into the archive under a timestamped name. -/
def find_new_post (testMode : Bool) (ts : Str) (postsDir : Option (List FileEntry))
    (archiveDir : List Str) : FindResult :=
  match postsDir with
  | none => ⟨none, [], archiveDir⟩
  | some files =>
    match scanSorted files with
    | [] => ⟨none, files, archiveDir⟩
    | f :: _ =>
      if testMode then ⟨some f.content, files, archiveDir⟩
      else ⟨some f.content, files.filter (fun g => g.name != f.name),
            archivedName f.name ts :: archiveDir⟩

/-! Posting (`post_to_facebook`) and the surrounding `run` / `main`
plumbing.  The Graph API call is an oracle `ApiOutcome`; the model records
the Boolean result, the number of `put_object` calls made and the number of
`logger.error` lines emitted. -/

/-- Outcome of the (single) `put_object` call, were it made. -/
inductive ApiOutcome
  | ok
  | graphApiError
  | otherError
deriving DecidableEq

/-- Observable result of `post_to_facebook`. -/
structure PostResult where
  success : Bool
  apiCalls : Nat
  errorLogs : Nat
deriving DecidableEq

/-- `post_to_facebook`: in test mode return `True` without touching the API;
otherwise a falsy (`None` or empty) `page_id` raises `ValueError`, which the
generic handler logs once and turns into `False`; otherwise the API is
called once and an exception is logged once and turned into `False`. -/
def post_to_facebook (testMode : Bool) (page_id : Option Str) (api : ApiOutcome) : PostResult :=
  if testMode then ⟨true, 0, 0⟩
  else if page_id.getD [] = [] then ⟨false, 0, 1⟩
  else
    match api with
    | .ok => ⟨true, 1, 0⟩
    | .graphApiError => ⟨false, 1, 1⟩
    | .otherError => ⟨false, 1, 1⟩

/-- The content-selection step of `run`.  The guard `if markdown_content:`
is Python truthiness: only a non-`None`, non-empty content takes the
formatting branch; a picked-but-empty markdown file falls through to
`generate_daily_message` just like a missing one. -/
def run_post_message (found : Option Str) (excConv : Bool) (m d : Nat) (wd : Fin 7)
    (fallback_messages : List Str) (default_message : Option Str) (rnd : Nat) : Str :=
  match found with
  | some md =>
    if md ≠ [] then convert_markdown_to_facebook_post excConv md
    else generate_daily_message m d wd fallback_messages default_message rnd
  | none => generate_daily_message m d wd fallback_messages default_message rnd

/-- `run`: build the post message from the `find_new_post` result and post
it; the pair is the message handed to `post_to_facebook` and the Boolean
`success` that `run` returns. -/
def run (found : Option Str) (excConv : Bool) (m d : Nat) (wd : Fin 7)
    (fallback_messages : List Str) (default_message : Option Str) (rnd : Nat)
    (testMode : Bool) (page_id : Option Str) (api : ApiOutcome) : Str × Bool :=
  (run_post_message found excConv m d wd fallback_messages default_message rnd,
   (post_to_facebook testMode page_id api).success)

/-- `main`: an exception anywhere in the construction or `run` (oracle
`excRun`) is logged and yields exit code `1`; otherwise the exit code is `0`
exactly when `run` returned `True`. -/
def main_exit (excRun : Bool) (success : Bool) : Nat :=
  if excRun then 1 else if success then 0 else 1

/-! Helper lemmas. -/

/-- Stripping never lengthens a string. -/
lemma length_pyStrip_le (s : Str) : (pyStrip s).length ≤ s.length := by
  unfold pyStrip
  rw [List.length_reverse]
  refine le_trans (List.dropWhile_sublist isPyWS).length_le ?_
  rw [List.length_reverse]
  exact (List.dropWhile_sublist isPyWS).length_le

/-- The conversion loop appends exactly one converted piece per input line:
`result` is the per-line map of `convertLine`. -/
lemma buildResult_eq_map (lines : List Str) : buildResult lines = lines.map convertLine := by
  have h : ∀ (acc : List Str) (ls : List Str),
      ls.foldl (fun acc line => acc ++ [convertLine line]) acc = acc ++ ls.map convertLine := by
    intro acc ls
    induction ls generalizing acc with
    | nil => simp
    | cons x xs ih => simp [ih]
  simpa [buildResult] using h [] lines

/-! Theorems for the claims. -/

/-- C9: on the non-exception path the returned string is at most `5000`
characters (the over-limit case is cut to `4997` characters plus `"..."`
before the final strip), and on the exception path it is at most `2000`
characters; so the result of `convert_markdown_to_facebook_post` never
exceeds `5000` characters. -/
theorem convert_markdown_length_le (exc : Bool) (md : Str) :
    (convert_markdown_to_facebook_post exc md).length ≤ 5000 ∧
    (convert_markdown_to_facebook_post true md).length ≤ 2000 := by
  have h2000 : (convert_markdown_to_facebook_post true md).length ≤ 2000 := by
    show (md.take 2000).length ≤ 2000
    exact md.length_take_le 2000
  refine ⟨?_, h2000⟩
  cases exc
  · show (convert_markdown_total md).length ≤ 5000
    unfold convert_markdown_total
    split
    · refine le_trans (length_pyStrip_le _) ?_
      rw [List.length_append]
      have ht := (textWithTags md).length_take_le 4997
      have h3 : (strS "...").length = 3 := rfl
      omega
    · next h => exact le_trans (length_pyStrip_le _) (by omega)
  · exact le_trans h2000 (by norm_num)

/-- C6: when an exception interrupts the conversion, the function returns
(rather than raises) the original input truncated to its first `2000`
characters; the result is the whole input exactly when the input fits. -/
theorem convert_markdown_exception_path (md : Str) :
    convert_markdown_to_facebook_post true md = md.take 2000 ∧
    (convert_markdown_to_facebook_post true md).length ≤ 2000 ∧
    (convert_markdown_to_facebook_post true md = md ↔ md.length ≤ 2000) := by
  refine ⟨rfl, ?_, ?_⟩
  · show (md.take 2000).length ≤ 2000
    exact md.length_take_le 2000
  · show md.take 2000 = md ↔ md.length ≤ 2000
    exact List.take_eq_self_iff md (n := 2000)

/-- C5: the conversion is a single pass of independent per-line rules: the
loop's output over any line list splits around each line as that line's own
`convertLine` image, and for every input whose converted text stays within
the `5000`-character limit the whole function is the per-line map joined,
hashtags appended, stripped. -/
theorem convert_is_per_line (md : Str) (hlen : (textWithTags md).length ≤ 5000) :
    (∀ pre x suf, (buildResult (pre ++ x :: suf)).flatten =
      (buildResult pre).flatten ++ convertLine x ++ (buildResult suf).flatten) ∧
    convert_markdown_to_facebook_post false md =
      pyStrip (((splitLines (pyStrip md)).map convertLine).flatten ++ hashtags) := by
  constructor
  · intro pre x suf
    simp [buildResult_eq_map, List.flatten_append]
  · show convert_markdown_total md = _
    unfold convert_markdown_total
    rw [if_neg (by omega)]
    simp only [textWithTags, buildResult_eq_map]

/-- Witness for C5 at a concrete input. -/
theorem convert_is_per_line_witness :
    (textWithTags (strS "# hi")).length ≤ 5000 ∧
    convert_markdown_to_facebook_post false (strS "# hi") =
      pyStrip (((splitLines (pyStrip (strS "# hi"))).map convertLine).flatten ++ hashtags) :=
  ⟨by decide, (convert_is_per_line (strS "# hi") (by decide)).2⟩

/-- C7: on a special `(month, day)` the daily message is exactly the fixed
special message, independent of the weekday theme and of the configured
messages; otherwise it is the weekday theme, `": "`, and one of the
configured fallback messages when that list is non-empty, or the configured
(or hard-coded) default message when it is empty. -/
theorem generate_daily_message_cases (m d : Nat) (wd : Fin 7) (fb : List Str)
    (dm : Option Str) (rnd : Nat) :
    (∀ msg, lookupSpecial m d = some msg → generate_daily_message m d wd fb dm rnd = msg) ∧
    (lookupSpecial m d = none → fb ≠ [] →
      ∃ msg, msg ∈ fb ∧
        generate_daily_message m d wd fb dm rnd =
          day_themes.getD wd.val [] ++ strS ": " ++ msg) ∧
    (lookupSpecial m d = none → fb = [] →
      generate_daily_message m d wd fb dm rnd =
        day_themes.getD wd.val [] ++ strS ": " ++ dm.getD default_message_fallback) := by
  refine ⟨?_, ?_, ?_⟩
  · intro msg h
    simp [generate_daily_message, h]
  · intro h hfb
    refine ⟨fb.getD (rnd % fb.length) [], ?_, ?_⟩
    · have hlt : rnd % fb.length < fb.length := Nat.mod_lt _ (List.length_pos.mpr hfb)
      rw [List.getD_eq_getElem fb [] hlt]
      exact List.getElem_mem hlt
    · simp [generate_daily_message, h, hfb]
  · intro h hfb
    simp [generate_daily_message, h, hfb]

/-- Witness for C7: New Year's Day yields the special message whatever the
rest of the state is; an ordinary date with no fallback messages yields the
themed default. -/
theorem generate_daily_message_cases_witness :
    generate_daily_message 1 1 0 [] none 0 =
      strS "🎉 Happy New Year! May this year be filled with discovery and growth! #NewYear" ∧
    generate_daily_message 6 2 1 [] none 0 =
      day_themes.getD (1 : Fin 7).val [] ++ strS ": " ++
        (none : Option Str).getD default_message_fallback :=
  ⟨(generate_daily_message_cases 1 1 0 [] none 0).1 _ rfl,
   (generate_daily_message_cases 6 2 1 [] none 0).2.2 rfl rfl⟩

/-- C8 counterexample: with every environment variable unset, loading a file
whose `facebook.api_version` is `v17.0` yields `v18.0` — the unset
`FB_API_VERSION` does not leave the file's value unchanged, because
`os.getenv('FB_API_VERSION', 'v18.0')` falls back to the truthy `'v18.0'`. -/
theorem load_config_api_version_counterexample :
    (load_config
        (some { paths := none, content := none,
                facebook := some { page_id := none, access_token := none,
                                   api_version := some (strS "v17.0") } })
        { FB_PAGE_ID := none, FB_ACCESS_TOKEN := none, FB_API_VERSION := none }).facebook =
      some { page_id := none, access_token := none,
             api_version := some (strS "v18.0") } ∧
    some (strS "v18.0") ≠ some (strS "v17.0") := by decide

/-- C8 (amended): non-facebook keys come through unchanged, and a non-empty
environment value overrides each facebook key, while an unset or empty one
leaves the file's value — except `api_version`, where an unset
`FB_API_VERSION` installs the default `'v18.0'` over whatever the file had
(an empty `FB_API_VERSION` still leaves the file's value). -/
theorem load_config_merge (file : Option Config) (env : Env) :
    (load_config file env).paths = (fileBase file).paths ∧
    (load_config file env).content = (fileBase file).content ∧
    ∀ fb, (load_config file env).facebook = some fb →
      (∀ v, env.FB_PAGE_ID = some v → v ≠ [] → fb.page_id = some v) ∧
      ((env.FB_PAGE_ID = none ∨ env.FB_PAGE_ID = some []) →
        fb.page_id = (baseFacebook file).page_id) ∧
      (∀ v, env.FB_ACCESS_TOKEN = some v → v ≠ [] → fb.access_token = some v) ∧
      ((env.FB_ACCESS_TOKEN = none ∨ env.FB_ACCESS_TOKEN = some []) →
        fb.access_token = (baseFacebook file).access_token) ∧
      (∀ v, env.FB_API_VERSION = some v → v ≠ [] → fb.api_version = some v) ∧
      (env.FB_API_VERSION = some [] → fb.api_version = (baseFacebook file).api_version) ∧
      (env.FB_API_VERSION = none → fb.api_version = some (strS "v18.0")) := by
  refine ⟨rfl, rfl, ?_⟩
  intro fb h
  rw [load_config] at h
  rw [Option.some_inj] at h
  subst h
  refine ⟨?_, ?_, ?_, ?_, ?_, ?_, ?_⟩
  · intro v hv hne
    simp [envOverride, hv, hne]
  · rintro (hv | hv) <;> simp [envOverride, hv]
  · intro v hv hne
    simp [envOverride, hv, hne]
  · rintro (hv | hv) <;> simp [envOverride, hv]
  · intro v hv hne
    simp [envOverride, hv, hne]
  · intro hv
    simp [envOverride, hv]
  · intro hv
    have hne : strS "v18.0" ≠ [] := by decide
    simp [envOverride, hv, hne]

/-- Witness for C8 at a concrete file and environment: a set `FB_PAGE_ID`
overrides and an unset `FB_API_VERSION` becomes `v18.0`. -/
theorem load_config_merge_witness :
    ((load_config none ⟨some (strS "p"), none, none⟩).facebook =
      some { page_id := some (strS "p"), access_token := none,
             api_version := some (strS "v18.0") }) ∧
    ({ page_id := some (strS "p"), access_token := none,
       api_version := some (strS "v18.0") } : FacebookCfg).page_id = some (strS "p") ∧
    ({ page_id := some (strS "p"), access_token := none,
       api_version := some (strS "v18.0") } : FacebookCfg).api_version =
      some (strS "v18.0") :=
  ⟨rfl,
   ((load_config_merge none ⟨some (strS "p"), none, none⟩).2.2 _ rfl).1 _ rfl (by decide),
   ((load_config_merge none ⟨some (strS "p"), none, none⟩).2.2 _ rfl).2.2.2.2.2.2 rfl⟩

/-- A two-file posts directory on which filename order and modification-time
order disagree: `b.md` is older, `a.md` sorts first. -/
def cexPosts : List FileEntry :=
  [⟨strS "b.md", 0, strS "B"⟩, ⟨strS "a.md", 5, strS "A"⟩]

/-- C1 counterexample: `find_new_post` returns the content of `a.md`
(alphabetically first), although the unique oldest file by modification
time is `b.md` — the selection is not by modification time. -/
theorem find_new_post_not_oldest :
    (find_new_post false (strS "20260101_000000") (some cexPosts) []).content =
      some (strS "A") ∧
    (∀ f ∈ cexPosts, (∀ g ∈ cexPosts, f.mtime ≤ g.mtime) → f.content = strS "B") ∧
    strS "A" ≠ strS "B" := by decide

/-- C1 (amended): for every posts directory of ASCII-named files (where
`Char.toLower` computes Python's `str.lower()` exactly) containing at least
one `*.md` file — hidden dot-initial ones included — `find_new_post`
selects a markdown file whose lowercased filename is lexicographically
least: the sort key is the filename, not the modification time. -/
theorem find_new_post_selects_min_name (tm : Bool) (ts : Str) (files : List FileEntry)
    (archive : List Str) (hascii : asciiNames files)
    (hne : files.filter (fun f => isMdName f.name) ≠ []) :
    ∃ f, f ∈ files ∧ isMdName f.name ∧
      (find_new_post tm ts (some files) archive).content = some f.content ∧
      ∀ g ∈ files, isMdName g.name → lowerKey f ≤ lowerKey g := by
  have hperm : (scanSorted files).Perm (files.filter fun f => isMdName f.name) :=
    List.perm_insertionSort byKey (files.filter fun f => isMdName f.name)
  have hsort : List.Sorted byKey (scanSorted files) :=
    List.sorted_insertionSort byKey (files.filter fun f => isMdName f.name)
  cases hs : scanSorted files with
  | nil =>
    rw [hs] at hperm
    exact absurd hperm.symm.eq_nil hne
  | cons f rest =>
    rw [hs] at hperm hsort
    have hfmem : f ∈ files.filter (fun f => isMdName f.name) :=
      hperm.mem_iff.mp (List.mem_cons_self f rest)
    obtain ⟨hfile, hmd⟩ := List.mem_filter.mp hfmem
    refine ⟨f, hfile, hmd, ?_, ?_⟩
    · cases tm <;> simp [find_new_post, hs]
    · intro g hg hgmd
      have hgmem : g ∈ f :: rest :=
        hperm.mem_iff.mpr (List.mem_filter.mpr ⟨hg, hgmd⟩)
      rcases List.mem_cons.mp hgmem with h | h
      · rw [h]
      · exact List.rel_of_sorted_cons hsort g h

/-- Witness for C1 at the concrete two-file directory. -/
theorem find_new_post_selects_min_name_witness :
    asciiNames cexPosts ∧ (cexPosts.filter (fun f => isMdName f.name) ≠ []) ∧
    ∃ f, f ∈ cexPosts ∧ isMdName f.name ∧
      (find_new_post false (strS "TS") (some cexPosts) []).content = some f.content ∧
      ∀ g ∈ cexPosts, isMdName g.name → lowerKey f ≤ lowerKey g :=
  ⟨by decide, by decide,
   find_new_post_selects_min_name false (strS "TS") cexPosts [] (by decide) (by decide)⟩

/-- C4: whenever a non-test-mode `find_new_post` returns content, that
content is a markdown file of the posts directory (hidden dot-initial
markdown files included), the resulting posts directory holds no file under
the consumed file's original name, and the timestamped archived name is in
the archive subdirectory — so a subsequent scan cannot select it again. -/
theorem find_new_post_archives (ts : Str) (files : List FileEntry) (archive : List Str)
    (c : Str) (hc : (find_new_post false ts (some files) archive).content = some c) :
    ∃ f, f ∈ files ∧ isMdName f.name ∧ f.content = c ∧
      (∀ g ∈ (find_new_post false ts (some files) archive).posts, g.name ≠ f.name) ∧
      archivedName f.name ts ∈ (find_new_post false ts (some files) archive).archive := by
  have hperm : (scanSorted files).Perm (files.filter fun f => isMdName f.name) :=
    List.perm_insertionSort byKey (files.filter fun f => isMdName f.name)
  cases hs : scanSorted files with
  | nil => simp [find_new_post, hs] at hc
  | cons f rest =>
    rw [hs] at hperm
    have hfmem : f ∈ files.filter (fun f => isMdName f.name) :=
      hperm.mem_iff.mp (List.mem_cons_self f rest)
    obtain ⟨hfile, hmd⟩ := List.mem_filter.mp hfmem
    have hcf : f.content = c := by
      simpa [find_new_post, hs] using hc
    refine ⟨f, hfile, hmd, hcf, ?_, ?_⟩
    · intro g hg
      simp only [find_new_post, hs] at hg
      have := (List.mem_filter.mp hg).2
      simpa using this
    · simp [find_new_post, hs]

/-- Witness for C4 on a one-file directory. -/
theorem find_new_post_archives_witness :
    ((find_new_post false (strS "T0") (some [⟨strS "x.md", 0, strS "X"⟩]) []).content =
      some (strS "X")) ∧
    ∃ f, f ∈ [(⟨strS "x.md", 0, strS "X"⟩ : FileEntry)] ∧ isMdName f.name ∧
      f.content = strS "X" ∧
      (∀ g ∈ (find_new_post false (strS "T0")
          (some [⟨strS "x.md", 0, strS "X"⟩]) []).posts, g.name ≠ f.name) ∧
      archivedName f.name (strS "T0") ∈
        (find_new_post false (strS "T0") (some [⟨strS "x.md", 0, strS "X"⟩]) []).archive :=
  ⟨by decide,
   find_new_post_archives (strS "T0") [⟨strS "x.md", 0, strS "X"⟩] [] (strS "X") (by decide)⟩

/-- C10: in test mode a run has no external effect on the modelled state:
`find_new_post` leaves the posts directory and the archive exactly as they
were (the selected file is read, not renamed), and `post_to_facebook`
returns `True` with zero Graph API calls. -/
theorem test_mode_reads_only (ts : Str) (files : List FileEntry) (archive : List Str)
    (pid : Option Str) (api : ApiOutcome) :
    (find_new_post true ts (some files) archive).posts = files ∧
    (find_new_post true ts (some files) archive).archive = archive ∧
    post_to_facebook true pid api = ⟨true, 0, 0⟩ := by
  refine ⟨?_, ?_, rfl⟩ <;>
    cases hs : scanSorted files <;> simp [find_new_post, hs]

/-- C3: posting is attempted at most once (no retry), a failed attempt is
logged exactly once and a successful one not at all, and `main` exits `0`
exactly when nothing raised and the post succeeded — any failure exits
non-zero. -/
theorem post_failure_exit (tm : Bool) (pid : Option Str) (api : ApiOutcome) (excRun : Bool) :
    (post_to_facebook tm pid api).apiCalls ≤ 1 ∧
    (post_to_facebook tm pid api).errorLogs =
      (if (post_to_facebook tm pid api).success then 0 else 1) ∧
    (main_exit excRun (post_to_facebook tm pid api).success = 0 ↔
      excRun = false ∧ (post_to_facebook tm pid api).success = true) := by
  cases tm
  · by_cases hp : pid.getD [] = []
    · cases excRun <;> simp [post_to_facebook, hp, main_exit]
    · cases api <;> cases excRun <;> simp [post_to_facebook, hp, main_exit]
  · cases excRun <;> simp [post_to_facebook, main_exit]

/-- C2 counterexample: on a run that picks the generated daily message, the
posted string is the daily message itself, which differs from the output of
the formatting step on that picked content — so not every posted string is
the formatter's output on the picked content. -/
theorem run_daily_not_formatted :
    run_post_message none false 6 2 0 [] none 0 = generate_daily_message 6 2 0 [] none 0 ∧
    run_post_message none false 6 2 0 [] none 0 ≠
      convert_markdown_to_facebook_post false (generate_daily_message 6 2 0 [] none 0) :=
  ⟨rfl, by decide⟩

/-- C2 (amended): the posted string is the formatter applied to the picked
markdown content whenever that content is non-empty, and is the generated
daily message unchanged when no markdown file was found or the picked
file's content is empty (Python truthiness of `if markdown_content:`). -/
theorem run_message_spec (found : Option Str) (excConv : Bool) (m d : Nat) (wd : Fin 7)
    (fb : List Str) (dm : Option Str) (rnd : Nat) (tm : Bool) (pid : Option Str)
    (api : ApiOutcome) :
    (run found excConv m d wd fb dm rnd tm pid api).1 =
      run_post_message found excConv m d wd fb dm rnd ∧
    (∀ md, found = some md → md ≠ [] →
      (run found excConv m d wd fb dm rnd tm pid api).1 =
        convert_markdown_to_facebook_post excConv md) ∧
    ((found = none ∨ found = some []) →
      (run found excConv m d wd fb dm rnd tm pid api).1 =
        generate_daily_message m d wd fb dm rnd) := by
  refine ⟨rfl, ?_, ?_⟩
  · intro md h hne
    subst h
    simp [run, run_post_message, hne]
  · rintro (h | h) <;> subst h <;> simp [run, run_post_message]

/-- Witness for C2: a concrete run on a non-empty markdown file takes the
formatting branch, and one on an empty picked file posts the daily
message. -/
theorem run_message_spec_witness :
    ((run (some (strS "# t")) false 6 2 0 [] none 0 false none .ok).1 =
      convert_markdown_to_facebook_post false (strS "# t")) ∧
    ((run (some []) false 6 2 0 [] none 0 false none .ok).1 =
      generate_daily_message 6 2 0 [] none 0) :=
  ⟨(run_message_spec (some (strS "# t")) false 6 2 0 [] none 0 false none .ok).2.1 _ rfl
     (by decide),
   (run_message_spec (some []) false 6 2 0 [] none 0 false none .ok).2.2 (Or.inr rfl)⟩

end FiewBot
